import Mathlib

/-!
Shallow embedding of `src/fw/bno055_steps/wifi.ino`: the WiFi connector
`initialize_wifi`, the two `send_data` overloads and the status classifier
`is_bad_http_code`.

Hardware and library effects are modelled by an environment `Env` holding the
value of the timer-control register `T1C` as read at entry, the successive
readings of `WiFi.status()`, and — for the i-th single-shot send of a run —
whether `https.begin` succeeds and which status code `https.POST` returns.
Observable side effects relevant to the claims (sos_mode invocations, client
construction, begin, POST) are recorded as an event trace.  `uint8_t`
arithmetic in the retry wrapper never wraps (the counter only increments while
strictly below `max_attempts ≤ 255`), so `Nat` is exact for it.
-/

/-- ESP8266 `wl_status_t` constant `WL_CONNECTED` (value 3 in the SDK). -/
def WL_CONNECTED : Nat := 3

/-- Observable effects of the single-shot sender: `sos` is a call to
`sos_mode()`, `clientNew` the construction of the `BearSSL::WiFiClientSecure`,
`httpsBegin` the `https.begin(...)` call (the connection attempt), and
`httpPost` the `https.POST(...)` call. -/
inductive Ev
  | sos
  | clientNew
  | httpsBegin
  | httpPost
  deriving DecidableEq, Repr

/-- One run's environment: `T1C` is the hardware register's value (the code
only ever reads it), `wifiStatus k` the value of the k-th `WiFi.status()`
call, and `beginOk i` / `postCode i` the outcome of `https.begin` / the status
code of `https.POST` on the i-th single-shot send (0-based). -/
structure Env where
  T1C : Nat
  wifiStatus : Nat → Nat
  beginOk : Nat → Bool
  postCode : Nat → Int

/-- `bool is_bad_http_code(int httpCode) { return httpCode < 200 || 300 <= httpCode; }` -/
def is_bad_http_code (httpCode : Int) : Bool :=
  decide (httpCode < 200) || decide (300 ≤ httpCode)

/-- The `while (WiFi.status() != WL_CONNECTED)` loop of `initialize_wifi`.
`k` is the index of the next `WiFi.status()` reading, `d` the number of
`delay(1000)` calls so far, and `rem = 10 - attempts` the number of times the
`attempts` counter may still be incremented before `attempts > 10` fires
(`attempts` starts at 0, so the loop is entered with `rem = 10`).  Each
iteration reads the status once; if not connected it delays, increments the
counter and breaks when the counter exceeds 10.  Returns the pair (index of
the first reading not consumed by the loop, total delays). -/
def wifi_poll_loop (status : Nat → Nat) : Nat → Nat → Nat → Nat × Nat
  | 0, k, d =>
      if status k = WL_CONNECTED then (k + 1, d) else (k + 1, d + 1)
  | rem + 1, k, d =>
      if status k = WL_CONNECTED then (k + 1, d)
      else wifi_poll_loop status rem (k + 1) (d + 1)

/-- What one call of `initialize_wifi` did: its return value, how many
`delay(1000)` calls it made, how many times it read `WiFi.status()` (loop
heads plus the final `if`), and the value of `T1C` at exit. -/
structure WifiRun where
  result : Bool
  delays : Nat
  polls : Nat
  T1C : Nat

/-- `bool initialize_wifi()`: after `WiFi.mode`/`WiFi.begin`, runs the polling
loop and then re-reads `WiFi.status()` once in the final `if` to decide the
return value.  The body never references `T1C`, so its exit value is the entry
value. -/
def initialize_wifi (env : Env) : WifiRun :=
  let p := wifi_poll_loop env.wifiStatus 10 0 0
  { result := decide (env.wifiStatus p.1 = WL_CONNECTED)
    delays := p.2
    polls := p.1 + 1
    T1C := env.T1C }

/-- What one single-shot `send_data(String)` call did: the returned
`httpCode`, its event trace, and the value of `T1C` at exit. -/
structure SendResult where
  httpCode : Int
  events : List Ev
  T1C : Nat

/-- `int send_data(String post_data)`, the single-shot sender, for the i-th
call of a run.  `httpCode` starts at -1; if `T1C != 0` the error is logged and
`sos_mode()` invoked; then the client is constructed and `https.begin` called;
on success the POST is issued and its status returned, otherwise `sos_mode()`
is invoked and the sentinel -1 returned.  The body never assigns `T1C`.

Modelled from the spec: `sos_mode` is defined outside the repository's staged
sources; per the spec it is an out-of-band error-signal routine that the
sender invokes and then continues, "return[ing] a sentinel -1 after invoking
an out-of-band error-signal routine" — so it is modelled as returning to its
caller, recorded as the event `Ev.sos`. -/
def send_data1 (env : Env) (i : Nat) : SendResult :=
  let evs := (if env.T1C ≠ 0 then [Ev.sos] else []) ++ [Ev.clientNew, Ev.httpsBegin]
  if env.beginOk i then
    { httpCode := env.postCode i, events := evs ++ [Ev.httpPost], T1C := env.T1C }
  else
    { httpCode := -1, events := evs ++ [Ev.sos], T1C := env.T1C }

/-- What one `send_data(String, uint8_t)` call did: how many single-shot calls
it made (the final value of its `attempts` counter), the last `httpCode` it
saw (the C function discards it), the concatenated event trace of its
single-shot calls, and `T1C` at exit. -/
structure Send2Result where
  calls : Nat
  lastCode : Int
  events : List Ev
  T1C : Nat

/-- The `while (is_bad_http_code(httpCode) && attempts < max_attempts)` loop
of the retry wrapper.  `code` is the current `httpCode`, `attempts` the
counter (equal to the number of single-shot calls made so far, which also
indexes the next call), `evs` the trace so far, and `gas = max_attempts -
attempts`, so the conjunct `attempts < max_attempts` holds exactly when
`gas > 0`. -/
def send2_loop (env : Env) : Nat → Int → Nat → List Ev → Send2Result
  | 0, code, attempts, evs =>
      { calls := attempts, lastCode := code, events := evs, T1C := env.T1C }
  | gas + 1, code, attempts, evs =>
      if is_bad_http_code code then
        let r := send_data1 env attempts
        send2_loop env gas r.httpCode (attempts + 1) (evs ++ r.events)
      else { calls := attempts, lastCode := code, events := evs, T1C := env.T1C }

/-- `void send_data(String post_data, uint8_t max_attempts)`: one
unconditional single-shot call, `attempts = 1`, then the retry loop. -/
def send_data2 (env : Env) (max_attempts : Nat) : Send2Result :=
  let r0 := send_data1 env 0
  send2_loop env (max_attempts - 1) r0.httpCode 1 r0.events

/-- Environment where every POST returns 500 (and WiFi is up, `T1C = 0`). -/
def envAll500 : Env :=
  { T1C := 0, wifiStatus := fun _ => WL_CONNECTED
    beginOk := fun _ => true, postCode := fun _ => 500 }

/-- The spec's retry scenario: the server answers 500, 500, 500, then 200. -/
def envScenario : Env :=
  { T1C := 0, wifiStatus := fun _ => WL_CONNECTED
    beginOk := fun _ => true, postCode := fun i => if i < 3 then 500 else 200 }

/-- Environment whose WiFi status never reads connected. -/
def envNeverConnected : Env :=
  { T1C := 0, wifiStatus := fun _ => 0
    beginOk := fun _ => true, postCode := fun _ => 200 }

/-- Environment whose WiFi status reads connected on the first reading only. -/
def envBlip : Env :=
  { T1C := 0, wifiStatus := fun k => if k = 0 then WL_CONNECTED else 0
    beginOk := fun _ => true, postCode := fun _ => 200 }

/-- Environment whose WiFi status always reads connected. -/
def envStable : Env :=
  { T1C := 0, wifiStatus := fun _ => WL_CONNECTED
    beginOk := fun _ => true, postCode := fun _ => 200 }

/-- Environment entered with the interrupt flag set (`T1C = 1`). -/
def envInterrupt : Env :=
  { T1C := 1, wifiStatus := fun _ => WL_CONNECTED
    beginOk := fun _ => true, postCode := fun _ => 200 }

/-- Environment where `https.begin` always fails. -/
def envBeginFail : Env :=
  { T1C := 0, wifiStatus := fun _ => WL_CONNECTED
    beginOk := fun _ => false, postCode := fun _ => 200 }

/-- The polling loop performs at most `rem + 1` further delays. -/
theorem wifi_poll_loop_delays_le (s : Nat → Nat) :
    ∀ rem k d, (wifi_poll_loop s rem k d).2 ≤ d + rem + 1 := by
  intro rem
  induction rem with
  | zero =>
      intro k d
      simp only [wifi_poll_loop]
      split <;> simp
  | succ rem ih =>
      intro k d
      simp only [wifi_poll_loop]
      split
      · omega
      · have := ih (k + 1) (d + 1)
        omega

/-- The polling loop consumes at most `rem + 1` further status readings. -/
theorem wifi_poll_loop_fst_le (s : Nat → Nat) :
    ∀ rem k d, (wifi_poll_loop s rem k d).1 ≤ k + rem + 1 := by
  intro rem
  induction rem with
  | zero =>
      intro k d
      simp only [wifi_poll_loop]
      split <;> simp
  | succ rem ih =>
      intro k d
      simp only [wifi_poll_loop]
      split
      · omega
      · have := ih (k + 1) (d + 1)
        omega

/-- When the loop is entered with as many delays behind it as readings
consumed (`k = d`), every reading that was followed by a delay read
not-connected. -/
theorem wifi_poll_loop_not_connected (s : Nat → Nat) :
    ∀ rem d, (∀ i, i < d → s i ≠ WL_CONNECTED) →
      ∀ i, i < (wifi_poll_loop s rem d d).2 → s i ≠ WL_CONNECTED := by
  intro rem
  induction rem with
  | zero =>
      intro d h i hi
      simp only [wifi_poll_loop] at hi
      split at hi
      · exact h i hi
      · rcases Nat.lt_or_ge i d with hd | hd
        · exact h i hd
        · have : i = d := by omega
          subst this
          assumption
  | succ rem ih =>
      intro d h i hi
      simp only [wifi_poll_loop] at hi
      split at hi
      · exact h i hi
      · refine ih (d + 1) (fun j hj => ?_) i hi
        rcases Nat.lt_or_ge j d with hd | hd
        · exact h j hd
        · have : j = d := by omega
          subst this
          assumption

/-- When the status reads connected, the loop exits at once: one reading
consumed, no delay, whatever `rem` is. -/
theorem wifi_poll_loop_connected (s : Nat → Nat) (rem k d : Nat)
    (h : s k = WL_CONNECTED) : wifi_poll_loop s rem k d = (k + 1, d) := by
  cases rem <;> simp [wifi_poll_loop, h]

/-- The retry loop never changes `T1C`. -/
theorem send2_loop_T1C (env : Env) :
    ∀ gas code attempts evs,
      (send2_loop env gas code attempts evs).T1C = env.T1C := by
  intro gas
  induction gas with
  | zero => intro code attempts evs; rfl
  | succ gas ih =>
      intro code attempts evs
      simp only [send2_loop]
      split
      · exact ih _ _ _
      · rfl

/-- The retry loop only increases the `attempts` counter. -/
theorem send2_loop_calls_ge (env : Env) :
    ∀ gas code attempts evs,
      attempts ≤ (send2_loop env gas code attempts evs).calls := by
  intro gas
  induction gas with
  | zero => intro code attempts evs; exact Nat.le_refl _
  | succ gas ih =>
      intro code attempts evs
      simp only [send2_loop]
      split
      · exact Nat.le_trans (Nat.le_succ _) (ih _ _ _)
      · exact Nat.le_refl _

/-- The retry loop makes at most `gas` further single-shot calls. -/
theorem send2_loop_calls_le (env : Env) :
    ∀ gas code attempts evs,
      (send2_loop env gas code attempts evs).calls ≤ attempts + gas := by
  intro gas
  induction gas with
  | zero => intro code attempts evs; exact Nat.le_refl _
  | succ gas ih =>
      intro code attempts evs
      simp only [send2_loop]
      split
      · have := ih (send_data1 env attempts).httpCode (attempts + 1)
          (evs ++ (send_data1 env attempts).events)
        omega
      · show attempts ≤ attempts + (gas + 1)
        omega

/-- If the current code and every single-shot result are bad, the retry loop
runs its full budget. -/
theorem send2_loop_all_bad (env : Env)
    (hbad : ∀ i, is_bad_http_code (send_data1 env i).httpCode = true) :
    ∀ gas code attempts evs, is_bad_http_code code = true →
      (send2_loop env gas code attempts evs).calls = attempts + gas := by
  intro gas
  induction gas with
  | zero => intro code attempts evs _; rfl
  | succ gas ih =>
      intro code attempts evs hc
      simp only [send2_loop, hc, if_true]
      have := ih (send_data1 env attempts).httpCode (attempts + 1)
        (evs ++ (send_data1 env attempts).events) (hbad attempts)
      omega

/-- The retry loop adds no sos_mode events of its own: if no single-shot call
emits `Ev.sos` and the trace so far has none, the final trace has none. -/
theorem send2_loop_no_sos (env : Env)
    (hns : ∀ i, Ev.sos ∉ (send_data1 env i).events) :
    ∀ gas code attempts evs, Ev.sos ∉ evs →
      Ev.sos ∉ (send2_loop env gas code attempts evs).events := by
  intro gas
  induction gas with
  | zero => intro code attempts evs he; exact he
  | succ gas ih =>
      intro code attempts evs he
      simp only [send2_loop]
      split
      · refine ih _ _ _ ?_
        intro hmem
        rcases List.mem_append.mp hmem with h | h
        · exact he h
        · exact hns attempts h
      · exact he

/-- If every call made before entering the loop (except the latest) was bad,
and `code` is the latest call's result, then every call the wrapper made
except the last one was bad: the loop stops on the first non-bad status. -/
theorem send2_loop_early_stop (env : Env) :
    ∀ gas code attempts evs, 1 ≤ attempts →
      (∀ i, i + 1 < attempts → is_bad_http_code (send_data1 env i).httpCode = true) →
      code = (send_data1 env (attempts - 1)).httpCode →
      ∀ i, i + 1 < (send2_loop env gas code attempts evs).calls →
        is_bad_http_code (send_data1 env i).httpCode = true := by
  intro gas
  induction gas with
  | zero =>
      intro code attempts evs _ hprev _ i hi
      exact hprev i hi
  | succ gas ih =>
      intro code attempts evs h1 hprev hcode i hi
      simp only [send2_loop] at hi
      split at hi
      · refine ih _ (attempts + 1) _ (by omega) (fun j hj => ?_) (by simp) i hi
        rcases Nat.lt_or_ge (j + 1) attempts with hd | hd
        · exact hprev j hd
        · have : j = attempts - 1 := by omega
          subst this
          rw [← hcode]
          assumption
      · exact hprev i hi

/-- One bad status with budget left forces at least one more call. -/
theorem send2_loop_step_ge (env : Env) :
    ∀ gas code attempts evs, is_bad_http_code code = true → 1 ≤ gas →
      attempts + 1 ≤ (send2_loop env gas code attempts evs).calls := by
  intro gas
  cases gas with
  | zero => intro code attempts evs _ h; omega
  | succ gas =>
      intro code attempts evs hc _
      simp only [send2_loop, hc, if_true]
      exact send2_loop_calls_ge env gas _ (attempts + 1) _

/-- Unfolding of the wrapper: one unconditional call, then the loop with
budget `max_attempts - 1`. -/
theorem send_data2_eq (env : Env) (max_attempts : Nat) :
    send_data2 env max_attempts
      = send2_loop env (max_attempts - 1) (send_data1 env 0).httpCode 1
          (send_data1 env 0).events := rfl

/-- C1 is false as stated: with `max_attempts = 0` the wrapper still makes one
single-shot call, exceeding the claimed bound of at most `max_attempts = 0`
calls (the first call happens before any comparison against the limit). -/
theorem C1_counterexample :
    (send_data2 envAll500 0).calls = 1 ∧ 0 < (send_data2 envAll500 0).calls := by
  decide

/-- C1 (amended): the two-argument `send_data` makes at least one and at most
`max 1 max_attempts` single-shot calls (so at most `max_attempts` whenever
`max_attempts ≥ 1`); every call before the last returned a status classified
bad, so it stops as soon as a call returns a non-bad status; and on the
response stream 500, 500, 500, 200 with `max_attempts = 4` it makes exactly 4
calls, ending on 200. -/
theorem C1_retry_bound (env : Env) (max_attempts : Nat) :
    1 ≤ (send_data2 env max_attempts).calls ∧
    (send_data2 env max_attempts).calls ≤ max 1 max_attempts ∧
    (∀ i, i + 1 < (send_data2 env max_attempts).calls →
      is_bad_http_code (send_data1 env i).httpCode = true) ∧
    (send_data2 envScenario 4).calls = 4 ∧
    (send_data2 envScenario 4).lastCode = 200 := by
  refine ⟨?_, ?_, ?_, by decide, by decide⟩
  · rw [send_data2_eq]
    exact send2_loop_calls_ge env _ _ 1 _
  · rw [send_data2_eq]
    have h := send2_loop_calls_le env (max_attempts - 1) (send_data1 env 0).httpCode
      1 (send_data1 env 0).events
    have hmax : 1 + (max_attempts - 1) ≤ max 1 max_attempts := by
      rcases Nat.eq_zero_or_pos max_attempts with h0 | h0
      · subst h0; simp
      · have := Nat.max_eq_right h0
        omega
    omega
  · rw [send_data2_eq]
    intro i hi
    exact send2_loop_early_stop env _ _ 1 _ (Nat.le_refl 1)
      (fun j hj => absurd hj (by omega)) rfl i hi

/-- C2: at the failing input `T1C = 1` the single-shot sender does invoke
`sos_mode`, but then still constructs the client, calls `https.begin` and
issues the POST — there is no early return after the `sos_mode()` call, so the
claimed "no network connection attempt" does not hold. -/
theorem C2_sends_despite_interrupt :
    envInterrupt.T1C = 1 ∧
    (send_data1 envInterrupt 0).events
      = [Ev.sos, Ev.clientNew, Ev.httpsBegin, Ev.httpPost] := by
  decide

/-- C3 is false as stated: on a status stream that never reads connected,
`initialize_wifi` performs 11 one-second delays and 12 status polls, exceeding
the claimed budget of 10; and on a stream that reads connected on the first
poll but not on the post-loop re-check, it returns false even though the
status read connected within the budget. -/
theorem C3_counterexample :
    (initialize_wifi envNeverConnected).delays = 11 ∧
    (initialize_wifi envNeverConnected).polls = 12 ∧
    envBlip.wifiStatus 0 = WL_CONNECTED ∧
    (initialize_wifi envBlip).result = false := by
  decide

/-- C3 (amended): for every sequence of WiFi status readings,
`initialize_wifi` performs at most 11 one-second delays and at most 12 status
polls; it returns true iff the final status poll — the re-check made after the
loop exits — reads connected; and every poll that was followed by a delay had
read not-connected, so the loop stops polling as soon as a poll reads
connected and does not retry beyond its budget. -/
theorem C3_wifi_poll_budget (env : Env) :
    (initialize_wifi env).delays ≤ 11 ∧
    (initialize_wifi env).polls ≤ 12 ∧
    ((initialize_wifi env).result = true ↔
      env.wifiStatus ((initialize_wifi env).polls - 1) = WL_CONNECTED) ∧
    (∀ i, i < (initialize_wifi env).delays →
      env.wifiStatus i ≠ WL_CONNECTED) := by
  refine ⟨?_, ?_, ?_, ?_⟩
  · have := wifi_poll_loop_delays_le env.wifiStatus 10 0 0
    simp only [initialize_wifi]
    omega
  · have := wifi_poll_loop_fst_le env.wifiStatus 10 0 0
    simp only [initialize_wifi]
    omega
  · simp [initialize_wifi]
  · intro i hi
    refine wifi_poll_loop_not_connected env.wifiStatus 10 0
      (fun j hj => absurd hj (by omega)) i ?_
    simpa [initialize_wifi] using hi

/-- C4: `is_bad_http_code c` is true exactly when `c < 200` or `c ≥ 300`, and
in particular 200 is not bad while 301, 404 and 199 are. -/
theorem C4_is_bad_http_code_spec :
    (∀ c : Int, is_bad_http_code c = true ↔ (c < 200 ∨ 300 ≤ c)) ∧
    is_bad_http_code 200 = false ∧
    is_bad_http_code 301 = true ∧
    is_bad_http_code 404 = true ∧
    is_bad_http_code 199 = true := by
  refine ⟨fun c => ?_, by decide, by decide, by decide, by decide⟩
  simp [is_bad_http_code]

/-- C5: whenever `https.begin` fails for the i-th single-shot call, the sender
invokes `sos_mode`, issues no POST, and returns the sentinel -1. -/
theorem C5_begin_failure (env : Env) (i : Nat) (h : env.beginOk i = false) :
    (send_data1 env i).httpCode = -1 ∧
    Ev.sos ∈ (send_data1 env i).events ∧
    Ev.httpPost ∉ (send_data1 env i).events := by
  refine ⟨?_, ?_, ?_⟩ <;> simp [send_data1, h]

/-- C5 at a concrete input: an environment where `https.begin` always fails. -/
theorem C5_begin_failure_witness :
    (send_data1 envBeginFail 0).httpCode = -1 ∧
    Ev.sos ∈ (send_data1 envBeginFail 0).events ∧
    Ev.httpPost ∉ (send_data1 envBeginFail 0).events :=
  C5_begin_failure envBeginFail 0 rfl

/-- C6: if every single-shot call returns a bad status, the wrapper returns
normally after exactly `max_attempts` single-shot calls (for
`max_attempts ≥ 1`); and when no single-shot call invokes `sos_mode`, the
wrapper's whole event trace contains no `sos_mode` invocation either — the
retry loop itself escalates nothing. -/
theorem C6_exhaust_retries (env : Env) (max_attempts : Nat)
    (hm : 1 ≤ max_attempts)
    (hbad : ∀ i, is_bad_http_code (send_data1 env i).httpCode = true) :
    (send_data2 env max_attempts).calls = max_attempts ∧
    ((∀ i, Ev.sos ∉ (send_data1 env i).events) →
      Ev.sos ∉ (send_data2 env max_attempts).events) := by
  constructor
  · rw [send_data2_eq]
    have := send2_loop_all_bad env hbad (max_attempts - 1)
      (send_data1 env 0).httpCode 1 (send_data1 env 0).events (hbad 0)
    omega
  · intro hns
    rw [send_data2_eq]
    exact send2_loop_no_sos env hns _ _ 1 _ (hns 0)

/-- C6 at a concrete input: the server answers 500 to all of
`max_attempts = 3` calls; the wrapper makes exactly 3 calls and never enters
`sos_mode`. -/
theorem C6_exhaust_retries_witness :
    (send_data2 envAll500 3).calls = 3 ∧
    Ev.sos ∉ (send_data2 envAll500 3).events := by
  have h := C6_exhaust_retries envAll500 3 (by omega) (fun i => rfl)
  exact ⟨h.1, h.2 (fun i => by simp [send_data1, envAll500])⟩

/-- C7: no operation of the file writes the hardware register `T1C` — for
each of `initialize_wifi`, the single-shot sender and the retry wrapper, its
value at exit equals its value at entry (`is_bad_http_code` is a pure function
of its argument and touches no state at all). -/
theorem C7_T1C_read_only (env : Env) (i max_attempts : Nat) :
    (initialize_wifi env).T1C = env.T1C ∧
    (send_data1 env i).T1C = env.T1C ∧
    (send_data2 env max_attempts).T1C = env.T1C := by
  refine ⟨rfl, ?_, ?_⟩
  · simp only [send_data1]
    split <;> rfl
  · rw [send_data2_eq]
    exact send2_loop_T1C env _ _ 1 _

/-- C8: the first single-shot call is made unconditionally, before any
comparison against `max_attempts`: at least one call is always made, and for
`max_attempts = 0` and `max_attempts = 1` exactly one call is made. -/
theorem C8_first_call_unconditional (env : Env) (max_attempts : Nat) :
    1 ≤ (send_data2 env max_attempts).calls ∧
    (send_data2 env 0).calls = 1 ∧
    (send_data2 env 1).calls = 1 := by
  refine ⟨?_, rfl, rfl⟩
  rw [send_data2_eq]
  exact send2_loop_calls_ge env _ _ 1 _

/-- C9: the sentinel -1 is classified bad, so when `https.begin` fails on the
first call the wrapper treats that outcome like any other bad status and
retries: with `max_attempts ≥ 2` at least a second single-shot call is made. -/
theorem C9_sentinel_retried (env : Env) (max_attempts : Nat)
    (hb : env.beginOk 0 = false) (hm : 2 ≤ max_attempts) :
    is_bad_http_code (-1) = true ∧
    (send_data1 env 0).httpCode = -1 ∧
    2 ≤ (send_data2 env max_attempts).calls := by
  have hcode : (send_data1 env 0).httpCode = -1 := by simp [send_data1, hb]
  refine ⟨by decide, hcode, ?_⟩
  rw [send_data2_eq, hcode]
  exact send2_loop_step_ge env _ _ 1 _ (by decide) (by omega)

/-- C9 at a concrete input: `https.begin` fails throughout and
`max_attempts = 2`; the first call returns -1 and a second call is made. -/
theorem C9_sentinel_retried_witness :
    is_bad_http_code (-1) = true ∧
    (send_data1 envBeginFail 0).httpCode = -1 ∧
    2 ≤ (send_data2 envBeginFail 2).calls :=
  C9_sentinel_retried envBeginFail 2 rfl (by omega)

/-- C10 is false as stated: on a status stream whose first reading is
connected but whose re-check is not, the loop body indeed never runs (zero
delays) yet the function returns false, not true. -/
theorem C10_counterexample :
    envBlip.wifiStatus 0 = WL_CONNECTED ∧
    (initialize_wifi envBlip).delays = 0 ∧
    (initialize_wifi envBlip).result = false := by
  decide

/-- C10 (amended): if the first status poll reads connected, the polling loop
body never executes — zero one-second delays, exactly two status polls — and
the function returns true iff the second poll (the re-check in the final `if`)
also reads connected. -/
theorem C10_immediate_connect (env : Env)
    (h : env.wifiStatus 0 = WL_CONNECTED) :
    (initialize_wifi env).delays = 0 ∧
    (initialize_wifi env).polls = 2 ∧
    ((initialize_wifi env).result = true ↔
      env.wifiStatus 1 = WL_CONNECTED) := by
  have hl : wifi_poll_loop env.wifiStatus 10 0 0 = (1, 0) :=
    wifi_poll_loop_connected env.wifiStatus 10 0 0 h
  refine ⟨?_, ?_, ?_⟩ <;> simp [initialize_wifi, hl]

/-- C10 at a concrete input: a stably connected status stream; zero delays and
an immediate true. -/
theorem C10_immediate_connect_witness :
    (initialize_wifi envStable).delays = 0 ∧
    (initialize_wifi envStable).polls = 2 ∧
    ((initialize_wifi envStable).result = true ↔
      envStable.wifiStatus 1 = WL_CONNECTED) :=
  C10_immediate_connect envStable rfl
